import Mathlib

/-!
Verification of `scripts/deploy-docs-review-command.py`.

The script is a sequential loop: for each repository entry (a local path or a
remote URL) it resolves a local working copy, copies a fixed prompt file into
`.claude/commands/review-docs.md`, and optionally stages/commits/pushes the
change by shelling out to git.

Shallow embedding: the external world seen by one `process_repository` call is
an `Env` (the relevant filesystem observations and the exit statuses the git
subcommands would have).  The call itself is a pure function producing an
`Outcome` (the Python return value, or an uncaught exception), a `trace` of
the observable actions it performed in order, and the process working
directory after the call (`os.chdir` is a process-wide effect).
-/

namespace DeployDocs

/-- Kind of a filesystem node, as observed by `os.path.isdir` checks. -/
inductive FileKind
  | dir
  | file
  | absent
deriving DecidableEq, Repr

/-- External world for one repository entry: the observable filesystem state at
the start of the call and the exit statuses the invoked git subcommands would
have.  `diffQuietOk` is true iff `git diff --quiet <target>` exits 0 (i.e. NO
unstaged difference); `diffCachedQuietOk` likewise for
`git diff --cached --quiet <target>`. -/
structure Env where
  fs : String → FileKind
  cloneOk : Bool
  diffQuietOk : Bool
  diffCachedQuietOk : Bool
  addOk : Bool
  commitOk : Bool
  pushOk : Bool

/-- One observable action of `process_repository`, in program order.
Console output is recorded without the ANSI color codes (presentation only).
The `Bool` on a git subcommand records the exit status that subprocess had. -/
inductive Action
  | consolePrint (s : String)
  | gitClone (url dest : String) (exitOk : Bool)
  | makedirs (dir : String)
  | copyFile (src dst : String)
  | chdir (dir : String)
  | gitDiffQuiet (f : String) (exitOk : Bool)
  | gitDiffCachedQuiet (f : String) (exitOk : Bool)
  | gitAdd (f : String) (exitOk : Bool)
  | gitCommit (msg : String) (exitOk : Bool)
  | gitPush (exitOk : Bool)
deriving DecidableEq, Repr

/-- Python-level result of one `process_repository` call: either the returned
`(success, message)` tuple, or an uncaught exception. -/
inductive Outcome
  | ok (success : Bool) (message : String)
  | exn (message : String)
deriving DecidableEq, Repr

def Outcome.isSuccess : Outcome → Bool
  | .ok s _ => s
  | .exn _ => false

def Outcome.isFailure : Outcome → Bool
  | .ok false _ => true
  | _ => false

def Outcome.isExn : Outcome → Bool
  | .exn _ => true
  | _ => false

structure ProcResult where
  outcome : Outcome
  trace : List Action
  cwd : String
deriving DecidableEq, Repr

/-! ### String helpers (Python `os.path` and `str` operations)

Implemented structurally over `String.data` so that concrete instances reduce
inside the kernel. -/

def str_startsWith (s p : String) : Bool :=
  List.isPrefixOf p.data s.data

def str_endsWith (s p : String) : Bool :=
  List.isPrefixOf p.data.reverse s.data.reverse

/-- `os.path.basename` (POSIX): everything after the last slash. -/
def os_path_basename (p : String) : String :=
  String.mk ((p.data.reverse.takeWhile (fun c => !(c == '/'))).reverse)

/-- `os.path.join a b` (POSIX, for a relative `b` without leading slash the
usual case): `b` if absolute, else `a`-slash-`b` avoiding a double slash. -/
def os_path_join (a b : String) : String :=
  if str_startsWith b "/" then b
  else if a = "" then b
  else if str_endsWith a "/" then a ++ b
  else a ++ "/" ++ b

/-- Python `str.strip()` (whitespace at both ends). -/
def str_strip (s : String) : String :=
  String.mk (((s.data.dropWhile Char.isWhitespace).reverse.dropWhile Char.isWhitespace).reverse)

/-- Worker for Python `str.replace`: left-to-right, non-overlapping.  Fuel is
the length of the input, which suffices because each step consumes at least
one character; structural recursion on the fuel keeps it kernel-reducible. -/
def list_replace_fuel (pat repl : List Char) : Nat → List Char → List Char
  | _, [] => []
  | 0, l => l
  | fuel + 1, c :: rest =>
    if !pat.isEmpty && List.isPrefixOf pat (c :: rest) then
      repl ++ list_replace_fuel pat repl fuel (List.drop (pat.length - 1) rest)
    else
      c :: list_replace_fuel pat repl fuel rest

/-- Python `str.replace` for a non-empty pattern (the script only uses the
pattern `".git"`). -/
def str_replace (s pat repl : String) : String :=
  String.mk (list_replace_fuel pat.data repl.data s.data.length s.data)

/-! ### Direct translations of the script's helper functions -/

/-- Line 39-51.  `run_command` swallows `CalledProcessError`: it returns
`(True, stdout)` when the subprocess exits 0 and `(False, stderr)` otherwise.
The first component is therefore "the command exited 0", NOT "the command
found changes". -/
def run_command (exit_ok : Bool) (stdout stderr : String) : Bool × String :=
  if exit_ok then (true, stdout) else (false, stderr)

/-- Line 54-56: `os.path.isdir(os.path.join(path, '.git'))`. -/
def is_git_repo (env : Env) (path : String) : Bool :=
  decide (env.fs (os_path_join path ".git") = FileKind.dir)

/-- Line 59-61. -/
def is_remote_url (repo_path : String) : Bool :=
  str_startsWith repo_path "http://" || str_startsWith repo_path "https://" ||
    str_startsWith repo_path "git@"

/-- Line 70-78: strip each line, keep non-empty lines not starting with `#`. -/
def read_repo_list (lines : List String) : List String :=
  (lines.map str_strip).filter (fun l => !(l == "") && !(str_startsWith l "#"))

/-- Line 95: `os.path.basename(repo_path).replace('.git', '')` — the name of
the directory a remote URL is cloned into (under the temp root). -/
def clone_dir_name (repo_path : String) : String :=
  str_replace (os_path_basename repo_path) ".git" ""

/-- Line 147-152, the fixed commit message. -/
def commit_msg : String :=
  "Add API documentation review command\n\nAdd /review-docs slash command for consistent API documentation review\nacross Ballerina connectors for low-code editor compatibility.\n\nCo-Authored-By: Claude <noreply@anthropic.com>"

/-! ### `process_repository` (lines 81-170)

The body is split by program phase: `deploy_phase` is lines 114-131 (directory
creation and file copy), `git_phase` is lines 133-170 (the `if do_commit`
block and the final return).  Both are straight-line translations; the split
only avoids duplicating the shared tail across the three entry branches. -/

/-- Lines 114-131: compute `claude_dir`/`target_file`, ensure the directory,
copy the prompt file (both replaced by prints in dry-run).  Returns the trace
of this phase and `target_file`.  `os.makedirs(..., exist_ok=True)` and
`shutil.copy2` are modelled as succeeding: their failures are environment
faults (permissions, disk) outside the scope of the claims. -/
def deploy_phase (local_path prompt_source : String) (dry_run : Bool) :
    List Action × String :=
  let claude_dir := os_path_join (os_path_join local_path ".claude") "commands"
  let target_file := os_path_join claude_dir "review-docs.md"
  let t1 := [Action.consolePrint "  Creating .claude/commands directory..."] ++
    (if dry_run then [Action.consolePrint ("  [DRY RUN] Would create: " ++ claude_dir)]
     else [Action.makedirs claude_dir, Action.consolePrint "  ✓ Directory ready"])
  let t2 := t1 ++ [Action.consolePrint "  Copying review-docs.md..."] ++
    (if dry_run then
      [Action.consolePrint ("  [DRY RUN] Would copy: " ++ prompt_source ++ " -> " ++ target_file)]
     else [Action.copyFile prompt_source target_file, Action.consolePrint "  ✓ File copied"])
  (t2, target_file)

/-- Lines 133-170: the `if do_commit` block and the final
`return True, "Repository processed successfully"`.

`os.chdir(local_path)` (line 135) raises `FileNotFoundError` when
`local_path` does not exist; it exists when it was just cloned (`cloned`) or
when the environment says it is a directory.  Note lines 138-141: the first
components of `run_command` on the two `git diff --quiet` invocations are
bound to `has_changes` / `has_staged_changes`, so they are true exactly when
the respective diff found NO difference (exit status 0). -/
def git_phase (env : Env) (local_path target_file : String)
    (do_commit do_push dry_run cloned : Bool) (cwd0 : String) :
    Outcome × List Action × String :=
  if do_commit then
    if cloned = true ∨ env.fs local_path = FileKind.dir then
      let has_changes := (run_command env.diffQuietOk "" "").1
      let has_staged_changes := (run_command env.diffCachedQuietOk "" "").1
      let t0 : List Action := [Action.chdir local_path,
        Action.gitDiffQuiet target_file env.diffQuietOk,
        Action.gitDiffCachedQuiet target_file env.diffCachedQuietOk]
      if has_changes || has_staged_changes then
        let t1 := t0 ++ [Action.consolePrint "  Committing changes..."]
        if dry_run then
          (Outcome.ok true "Repository processed successfully",
           t1 ++ [Action.consolePrint "  [DRY RUN] Would commit changes"], local_path)
        else
          let t2 := t1 ++ [Action.gitAdd target_file env.addOk,
            Action.gitCommit commit_msg env.commitOk,
            Action.consolePrint "  ✓ Changes committed"]
          if do_push then
            let t3 := t2 ++ [Action.consolePrint "  Pushing changes..."]
            if dry_run then
              (Outcome.ok true "Repository processed successfully",
               t3 ++ [Action.consolePrint "  [DRY RUN] Would push to remote"], local_path)
            else
              if env.pushOk then
                (Outcome.ok true "Repository processed successfully",
                 t3 ++ [Action.gitPush true, Action.consolePrint "  ✓ Changes pushed"],
                 local_path)
              else
                (Outcome.ok true "Repository processed successfully",
                 t3 ++ [Action.gitPush false, Action.consolePrint "  ✗ Failed to push changes"],
                 local_path)
          else
            (Outcome.ok true "Repository processed successfully", t2, local_path)
      else
        (Outcome.ok true "Repository processed successfully",
         t0 ++ [Action.consolePrint "  ⚠  No changes to commit (file already exists)"],
         local_path)
    else
      (Outcome.exn ("FileNotFoundError: chdir: " ++ local_path), [], cwd0)
  else
    (Outcome.ok true "Repository processed successfully", [], cwd0)

/-- Lines 81-170, one entry.  `cwd0` is the process working directory when the
call starts; the returned `cwd` is the working directory when it ends. -/
def process_repository (env : Env) (repo_path prompt_source temp_dir : String)
    (do_commit do_push dry_run : Bool) (cwd0 : String) : ProcResult :=
  if is_remote_url repo_path then
    let local_path := os_path_join temp_dir (clone_dir_name repo_path)
    let t0 : List Action := [Action.consolePrint "  Cloning repository..."]
    if dry_run then
      let t1 := t0 ++
        [Action.consolePrint ("  [DRY RUN] Would clone: " ++ repo_path ++ " to " ++ local_path)]
      let d := deploy_phase local_path prompt_source dry_run
      let g := git_phase env local_path d.2 do_commit do_push dry_run false cwd0
      ⟨g.1, t1 ++ d.1 ++ g.2.1, g.2.2⟩
    else
      if env.cloneOk then
        let t1 := t0 ++ [Action.gitClone repo_path local_path true,
          Action.consolePrint "  ✓ Cloned successfully"]
        let d := deploy_phase local_path prompt_source dry_run
        let g := git_phase env local_path d.2 do_commit do_push dry_run true cwd0
        ⟨g.1, t1 ++ d.1 ++ g.2.1, g.2.2⟩
      else
        ⟨Outcome.ok false "Failed to clone repository",
         t0 ++ [Action.gitClone repo_path local_path false], cwd0⟩
  else
    if env.fs repo_path = FileKind.dir then
      if is_git_repo env repo_path then
        let d := deploy_phase repo_path prompt_source dry_run
        let g := git_phase env repo_path d.2 do_commit do_push dry_run false cwd0
        ⟨g.1, d.1 ++ g.2.1, g.2.2⟩
      else
        ⟨Outcome.ok false ("Not a git repository: " ++ repo_path), [], cwd0⟩
    else
      ⟨Outcome.ok false ("Directory not found: " ++ repo_path), [], cwd0⟩

/-! ### `main` (lines 173-271) -/

/-- The per-entry loop of `main` (lines 225-245).  Each entry carries its own
external world.  Returns `none` when an entry raised (the exception propagates
out of the loop and the interpreter dies), otherwise
`some (successful, failed, final cwd)`. -/
def main_loop (prompt_source temp_dir : String) (do_commit do_push dry_run : Bool) :
    List (Env × String) → String → Option (Nat × Nat × String)
  | [], cwd => some (0, 0, cwd)
  | (env, repo) :: rest, cwd =>
    let r := process_repository env repo prompt_source temp_dir do_commit do_push dry_run cwd
    match r.outcome with
    | .exn _ => none
    | .ok true _ =>
      (main_loop prompt_source temp_dir do_commit do_push dry_run rest r.cwd).map
        (fun t => (t.1 + 1, t.2.1, t.2.2))
    | .ok false _ =>
      (main_loop prompt_source temp_dir do_commit do_push dry_run rest r.cwd).map
        (fun t => (t.1, t.2.1 + 1, t.2.2))

/-- The sequence of per-entry outcomes of the loop (in order, with the working
directory threaded exactly as `main_loop` threads it). -/
def outcomes_list (prompt_source temp_dir : String) (do_commit do_push dry_run : Bool) :
    List (Env × String) → String → List Outcome
  | [], _ => []
  | (env, repo) :: rest, cwd =>
    let r := process_repository env repo prompt_source temp_dir do_commit do_push dry_run cwd
    r.outcome :: outcomes_list prompt_source temp_dir do_commit do_push dry_run rest r.cwd

/-- Exit status of `main` (lines 173-271).  `repo_list_is_file` and
`prompt_source_is_file` are the two `os.path.isfile` precondition checks;
`lines` are the lines of the list file; `envs` pairs each surviving entry with
its external world.  `--push` implies `--commit` (line 184-185).  An uncaught
exception makes the interpreter exit with status 1. -/
def main_exit_code (repo_list_is_file prompt_source_is_file : Bool)
    (lines : List String) (envs : List Env) (prompt_source temp_dir : String)
    (arg_commit arg_push arg_dry : Bool) (cwd0 : String) : Nat :=
  if !repo_list_is_file then 1
  else if !prompt_source_is_file then 1
  else
    let repos := read_repo_list lines
    if repos.isEmpty then 1
    else
      match main_loop prompt_source temp_dir (arg_commit || arg_push) arg_push arg_dry
          (envs.zip repos) cwd0 with
      | none => 1
      | some (_, failed, _) => if failed > 0 then 1 else 0

/-! ### Concrete environments used by the theorems -/

/-- A world in which no path exists (e.g. under a freshly created
`tempfile.TemporaryDirectory()` nothing exists yet). -/
def env_all_absent : Env :=
  { fs := fun _ => FileKind.absent, cloneOk := true, diffQuietOk := true,
    diffCachedQuietOk := true, addOk := true, commitOk := true, pushOk := true }

/-- `/repo` is a valid local git working copy and the deployed target file has
no unstaged and no staged difference (both `git diff --quiet` invocations exit
0): nothing to commit. -/
def env_no_diff : Env :=
  { fs := fun p => if p == "/repo" || p == "/repo/.git" then FileKind.dir else FileKind.absent,
    cloneOk := true, diffQuietOk := true, diffCachedQuietOk := true,
    addOk := true, commitOk := true, pushOk := true }

/-- `/repo` is a valid local git working copy and the target file differs both
in the working tree and in the index (both `git diff --quiet` invocations exit
1). -/
def env_both_dirty : Env :=
  { fs := fun p => if p == "/repo" || p == "/repo/.git" then FileKind.dir else FileKind.absent,
    cloneOk := true, diffQuietOk := false, diffCachedQuietOk := false,
    addOk := true, commitOk := true, pushOk := true }

/-- The second run on an already up-to-date `/repo`: no differences anywhere,
and `git commit` would fail ("nothing to commit", exit 1), which is what
actually happens on a clean tree. -/
def env_second_run : Env :=
  { fs := fun p => if p == "/repo" || p == "/repo/.git" then FileKind.dir else FileKind.absent,
    cloneOk := true, diffQuietOk := true, diffCachedQuietOk := true,
    addOk := true, commitOk := false, pushOk := true }

/-- Is the trace action one of the mutating operations (clone, directory
creation, file copy, git add/commit/push)? -/
def is_mutating : Action → Bool
  | .gitClone _ _ _ => true
  | .makedirs _ => true
  | .copyFile _ _ => true
  | .gitAdd _ _ => true
  | .gitCommit _ _ => true
  | .gitPush _ => true
  | _ => false

def target_repo_file : String := "/repo/.claude/commands/review-docs.md"

/-- A valid local git working copy at `/repo` where `git push` would fail;
the target file has an unstaged-clean diff so the commit branch is taken. -/
def env_push_fail : Env :=
  { fs := fun p => if p == "/repo" || p == "/repo/.git" then FileKind.dir else FileKind.absent,
    cloneOk := true, diffQuietOk := true, diffCachedQuietOk := false,
    addOk := true, commitOk := true, pushOk := false }

/-- A directory `/repo` that is a valid git working copy of the linked-worktree
kind: its `.git` entry is a FILE, not a directory. -/
def env_gitfile : Env :=
  { fs := fun p => if p == "/repo" then FileKind.dir
      else if p == "/repo/.git" then FileKind.file else FileKind.absent,
    cloneOk := true, diffQuietOk := true, diffCachedQuietOk := true,
    addOk := true, commitOk := true, pushOk := true }

/-- The success/failure status `process_repository` reports in dry-run mode,
as a function of the entry and the environment (proved equal to the code's
behaviour below). -/
def dry_run_success (env : Env) (repo temp_dir : String) (dc : Bool) : Bool :=
  if is_remote_url repo then
    !dc || decide (env.fs (os_path_join temp_dir (clone_dir_name repo)) = FileKind.dir)
  else
    decide (env.fs repo = FileKind.dir) && is_git_repo env repo


/-! ### Claim theorems -/

set_option maxRecDepth 100000

/-- Claim C1 (corrected by the code itself — code bug): the claim is FALSE of the code: `run_command` returns `True` exactly
when the subprocess exits 0, and `git diff --quiet` exits 0 when there is NO
difference, so `has_changes` (line 138) is true precisely when the working
tree is clean.  The script therefore stages and commits when at least one of
the two diffs found no difference — the opposite of the claimed condition.
Concretely: with no difference at all it stages, commits and never prints the
no-changes message; with differences both unstaged and staged it stages
nothing and prints the no-changes message. -/
theorem commit_condition_inverted :
    (Action.gitAdd target_repo_file true ∈
        (process_repository env_no_diff "/repo" "/s" "/t" true false false "/w").trace ∧
      Action.gitCommit commit_msg true ∈
        (process_repository env_no_diff "/repo" "/s" "/t" true false false "/w").trace ∧
      Action.consolePrint "  ⚠  No changes to commit (file already exists)" ∉
        (process_repository env_no_diff "/repo" "/s" "/t" true false false "/w").trace) ∧
    (Action.consolePrint "  ⚠  No changes to commit (file already exists)" ∈
        (process_repository env_both_dirty "/repo" "/s" "/t" true false false "/w").trace ∧
      ((process_repository env_both_dirty "/repo" "/s" "/t" true false false "/w").trace.all
        (fun a => !(a matches Action.gitAdd _ _) && !(a matches Action.gitCommit _ _))) = true) := by
  decide

/-- Claim C2 (code bug): the claim is FALSE of the code for the same inverted-condition
reason: on a second run with nothing changed (both diffs clean, `git commit`
failing on the clean tree) the script takes the commit branch, prints
"✓ Changes committed", and never prints the no-changes message.  (No new
commit is created only because the swallowed `git commit` itself fails.) -/
theorem second_run_reports_committed :
    (process_repository env_second_run "/repo" "/s" "/t" true false false "/w").outcome =
      Outcome.ok true "Repository processed successfully" ∧
    Action.consolePrint "  ✓ Changes committed" ∈
      (process_repository env_second_run "/repo" "/s" "/t" true false false "/w").trace ∧
    Action.gitCommit commit_msg false ∈
      (process_repository env_second_run "/repo" "/s" "/t" true false false "/w").trace ∧
    Action.consolePrint "  ⚠  No changes to commit (file already exists)" ∉
      (process_repository env_second_run "/repo" "/s" "/t" true false false "/w").trace := by
  decide

/-- Claim C3 (code bug): the claim is FALSE of the code: with `--dry-run` and `--commit` on a
remote URL, the clone is skipped but `os.chdir` (line 135) still runs on the
never-created clone directory and raises `FileNotFoundError` out of
`process_repository`; `main` has no try/except, so the loop dies and the
remaining entries are never attempted. -/
theorem dry_run_commit_remote_raises :
    (process_repository env_all_absent "https://github.com/org/repo.git" "/s" "/tmp/deploy"
        true false true "/start").outcome =
      Outcome.exn "FileNotFoundError: chdir: /tmp/deploy/repo" ∧
    main_loop "/s" "/tmp/deploy" true false true
      [(env_all_absent, "https://github.com/org/repo.git"), (env_all_absent, "/second-entry")]
      "/start" = none := by
  decide

/-- Claim C4, counterexample: in dry-run mode an invalid local entry is still
reported as FAILED, refuting "always reports the entry as successful". -/
theorem dry_run_reports_failure_cex :
    (process_repository env_all_absent "/no/such/dir" "/s" "/t" false false true "/w").outcome =
      Outcome.ok false "Directory not found: /no/such/dir" := by
  decide

/-- Claim C9: the clone directory name is the URL basename with EVERY occurrence of
the substring ".git" removed (Python `str.replace`), not only a trailing
suffix: "my.github-tools" becomes "myhub-tools", and interior occurrences such
as in "a.gitb.git" or "x.git.y.git" are removed as well. -/
theorem clone_dir_name_removes_every_git :
    clone_dir_name "https://github.com/org/my.github-tools" = "myhub-tools" ∧
    clone_dir_name "https://github.com/org/repo.git" = "repo" ∧
    clone_dir_name "https://github.com/org/a.gitb.git" = "ab" ∧
    clone_dir_name "git@github.com:org/x.git.y.git" = "x.y" := by
  decide


theorem deploy_phase_dry_no_mutation (lp ps : String) :
    ((deploy_phase lp ps true).1.all fun a => !is_mutating a) = true := by
  simp [deploy_phase, is_mutating]

theorem git_phase_dry_no_mutation (env : Env) (lp tf cwd : String) (dc dp cloned : Bool) :
    ((git_phase env lp tf dc dp true cloned cwd).2.1.all fun a => !is_mutating a) = true := by
  unfold git_phase
  cases hq : env.diffQuietOk <;> cases hc : env.diffCachedQuietOk <;>
    split_ifs <;> simp_all [is_mutating, run_command]

theorem git_phase_dry_success (env : Env) (lp tf cwd : String) (dc dp cloned : Bool) :
    (git_phase env lp tf dc dp true cloned cwd).1.isSuccess =
      (!dc || (cloned || decide (env.fs lp = FileKind.dir))) := by
  unfold git_phase
  cases hq : env.diffQuietOk <;> cases hc : env.diffCachedQuietOk <;>
    split_ifs <;> simp_all [Outcome.isSuccess, run_command]

/-- Claim C4, amended: running an entry with dry-run performs no destructive
action (no clone, no directory creation, no file copy, no git add, commit or
push ever appears in the trace), and the entry is reported successful exactly
when it is a remote URL with commit not requested, a remote URL with commit
requested whose clone path happens to exist already, or a local directory
that is a git repository.  (Invalid local entries are reported failed even in
dry-run, and a remote entry with commit requested and no pre-existing clone
directory raises out of the call instead of reporting success.) -/
theorem dry_run_no_mutation_success_iff (env : Env) (repo ps td cwd : String) (dc dp : Bool) :
    ((process_repository env repo ps td dc dp true cwd).trace.all fun a => !is_mutating a) = true ∧
    (process_repository env repo ps td dc dp true cwd).outcome.isSuccess =
      dry_run_success env repo td dc := by
  unfold process_repository dry_run_success
  cases hr : is_remote_url repo
  · by_cases hd : env.fs repo = FileKind.dir
    · by_cases hg : is_git_repo env repo = true
      · refine ⟨?_, ?_⟩
        · simp only [hr, Bool.false_eq_true, if_false, hd, if_true, hg, if_pos,
            List.all_append, Bool.and_eq_true]
          exact ⟨deploy_phase_dry_no_mutation _ _,
            git_phase_dry_no_mutation env _ _ cwd dc dp false⟩
        · simp only [hr, Bool.false_eq_true, if_false, hd, if_true, hg, if_pos]
          rw [git_phase_dry_success]
          simp [hd, hg]
      · refine ⟨?_, ?_⟩ <;> simp_all [hr, hd, Outcome.isSuccess, is_mutating]
    · refine ⟨?_, ?_⟩ <;> simp_all [hr, Outcome.isSuccess, is_mutating]
  · refine ⟨?_, ?_⟩
    · simp only [hr, if_true, List.all_append, Bool.and_eq_true]
      refine ⟨⟨?_, deploy_phase_dry_no_mutation _ _⟩,
        git_phase_dry_no_mutation env _ _ cwd dc dp false⟩
      simp [is_mutating]
    · simp only [hr, if_true]
      rw [git_phase_dry_success]
      simp


/-- Claim C6: when commit and push are requested and the commit branch is
reached, a failing `git push` is reported ("✗ Failed to push changes") but the
entry still returns success — push failure never turns a processed entry into
a failed entry. -/
theorem push_failure_entry_still_success (env : Env) (repo ps td cwd : String)
    (hrem : is_remote_url repo = false)
    (hdir : env.fs repo = FileKind.dir)
    (hgit : is_git_repo env repo = true)
    (hbr : (env.diffQuietOk || env.diffCachedQuietOk) = true)
    (hpush : env.pushOk = false) :
    (process_repository env repo ps td true true false cwd).outcome =
      Outcome.ok true "Repository processed successfully" ∧
    Action.consolePrint "  ✗ Failed to push changes" ∈
      (process_repository env repo ps td true true false cwd).trace := by
  cases hq : env.diffQuietOk <;> cases hc : env.diffCachedQuietOk <;>
    simp_all [process_repository, git_phase, deploy_phase, run_command]

theorem push_failure_witness :
    (process_repository env_push_fail "/repo" "/s" "/t" true true false "/w").outcome =
      Outcome.ok true "Repository processed successfully" ∧
    Action.consolePrint "  ✗ Failed to push changes" ∈
      (process_repository env_push_fail "/repo" "/s" "/t" true true false "/w").trace :=
  push_failure_entry_still_success env_push_fail "/repo" "/s" "/t" "/w"
    (by decide) (by decide) (by decide) (by decide) (by decide)

/-- Claim C7: with commit requested on a valid local entry, the process-wide
working directory is changed to the entry's local path and never restored, so
the following entry of the loop starts with that leaked working directory. -/
theorem cwd_leaks_across_entries (env : Env) (repo ps td cwd0 : String) (dp : Bool)
    (rest : List (Env × String))
    (hrem : is_remote_url repo = false)
    (hdir : env.fs repo = FileKind.dir)
    (hgit : is_git_repo env repo = true) :
    (process_repository env repo ps td true dp false cwd0).cwd = repo ∧
    main_loop ps td true dp false ((env, repo) :: rest) cwd0 =
      (main_loop ps td true dp false rest repo).map (fun t => (t.1 + 1, t.2.1, t.2.2)) := by
  have h12 : (process_repository env repo ps td true dp false cwd0).outcome =
      Outcome.ok true "Repository processed successfully" ∧
      (process_repository env repo ps td true dp false cwd0).cwd = repo := by
    cases hq : env.diffQuietOk <;> cases hc : env.diffCachedQuietOk <;> cases dp <;>
      cases hp : env.pushOk <;>
      simp_all [process_repository, git_phase, deploy_phase, run_command]
  refine ⟨h12.2, ?_⟩
  simp only [main_loop]
  rw [h12.1, h12.2]

theorem cwd_leaks_witness :
    (process_repository env_no_diff "/repo" "/s" "/t" true false false "/w").cwd = "/repo" ∧
    main_loop "/s" "/t" true false false [(env_no_diff, "/repo")] "/w" =
      (main_loop "/s" "/t" true false false ([] : List (Env × String)) "/repo").map
        (fun t => (t.1 + 1, t.2.1, t.2.2)) :=
  cwd_leaks_across_entries env_no_diff "/repo" "/s" "/t" "/w" false []
    (by decide) (by decide) (by decide)

/-- Claim C8: when the commit branch is taken (not in dry-run), the entry
returns success and prints "✓ Changes committed" regardless of the exit
statuses of `git add` and `git commit` (the env fields `addOk`/`commitOk` are
universally quantified here): a failed commit is silently swallowed. -/
theorem commit_result_ignored (env : Env) (repo ps td cwd : String) (a c dp : Bool)
    (hrem : is_remote_url repo = false)
    (hdir : env.fs repo = FileKind.dir)
    (hgit : is_git_repo env repo = true)
    (hbr : (env.diffQuietOk || env.diffCachedQuietOk) = true) :
    (process_repository { env with addOk := a, commitOk := c } repo ps td true dp false cwd).outcome =
      Outcome.ok true "Repository processed successfully" ∧
    Action.consolePrint "  ✓ Changes committed" ∈
      (process_repository { env with addOk := a, commitOk := c } repo ps td true dp false cwd).trace ∧
    Action.gitCommit commit_msg c ∈
      (process_repository { env with addOk := a, commitOk := c } repo ps td true dp false cwd).trace := by
  cases hq : env.diffQuietOk <;> cases hc : env.diffCachedQuietOk <;> cases dp <;>
    cases hp : env.pushOk <;>
    simp_all [process_repository, git_phase, deploy_phase, run_command, is_git_repo]

theorem commit_result_ignored_witness :
    (process_repository { env_no_diff with addOk := true, commitOk := false }
        "/repo" "/s" "/t" true false false "/w").outcome =
      Outcome.ok true "Repository processed successfully" ∧
    Action.consolePrint "  ✓ Changes committed" ∈
      (process_repository { env_no_diff with addOk := true, commitOk := false }
        "/repo" "/s" "/t" true false false "/w").trace ∧
    Action.gitCommit commit_msg false ∈
      (process_repository { env_no_diff with addOk := true, commitOk := false }
        "/repo" "/s" "/t" true false false "/w").trace :=
  commit_result_ignored env_no_diff "/repo" "/s" "/t" "/w" true false false
    (by decide) (by decide) (by decide) (by decide)

/-- Claim C10: a local entry is accepted as version-controlled iff
`<path>/.git` is a DIRECTORY; a working copy whose `.git` is a file (linked
worktree / submodule checkout) is classified as not a git repository and the
entry fails with the corresponding message. -/
theorem gitfile_worktree_rejected (env : Env) (repo ps td cwd : String) (dc dp dr : Bool)
    (hrem : is_remote_url repo = false)
    (hdir : env.fs repo = FileKind.dir)
    (hgitfile : env.fs (os_path_join repo ".git") = FileKind.file) :
    is_git_repo env repo = false ∧
    (process_repository env repo ps td dc dp dr cwd).outcome =
      Outcome.ok false ("Not a git repository: " ++ repo) ∧
    (∀ p : String, (is_git_repo env p = true ↔ env.fs (os_path_join p ".git") = FileKind.dir)) := by
  have hg : is_git_repo env repo = false := by simp [is_git_repo, hgitfile]
  refine ⟨hg, ?_, ?_⟩
  · simp [process_repository, hrem, hdir, hg]
  · intro p
    simp [is_git_repo]

theorem gitfile_worktree_witness :
    is_git_repo env_gitfile "/repo" = false ∧
    (process_repository env_gitfile "/repo" "/s" "/t" true false false "/w").outcome =
      Outcome.ok false ("Not a git repository: " ++ "/repo") ∧
    (∀ p : String,
      (is_git_repo env_gitfile p = true ↔
        env_gitfile.fs (os_path_join p ".git") = FileKind.dir)) :=
  gitfile_worktree_rejected env_gitfile "/repo" "/s" "/t" "/w" true false false
    (by decide) (by decide) (by decide)


theorem main_loop_counts (ps td : String) (dc dp dr : Bool) (l : List (Env × String)) :
    ∀ cwd : String,
      ((outcomes_list ps td dc dp dr l cwd).all fun o => !o.isExn) = true →
      ∃ endcwd, main_loop ps td dc dp dr l cwd =
        some ((outcomes_list ps td dc dp dr l cwd).countP Outcome.isSuccess,
              (outcomes_list ps td dc dp dr l cwd).countP Outcome.isFailure, endcwd) := by
  induction l with
  | nil =>
    intro cwd _
    exact ⟨cwd, rfl⟩
  | cons hd tl ih =>
    obtain ⟨env, repo⟩ := hd
    intro cwd h
    simp only [outcomes_list, main_loop] at h ⊢
    cases ho : (process_repository env repo ps td dc dp dr cwd).outcome with
    | exn m =>
      rw [ho] at h
      simp [Outcome.isExn] at h
    | ok b m =>
      obtain ⟨e, he⟩ :=
        ih (process_repository env repo ps td dc dp dr cwd).cwd (by simp_all)
      cases b
      · refine ⟨e, ?_⟩
        rw [he]
        simp [List.countP_cons, Outcome.isSuccess, Outcome.isFailure]
      · refine ⟨e, ?_⟩
        rw [he]
        simp [List.countP_cons, Outcome.isSuccess, Outcome.isFailure]


/-- Claim C5: provided no entry raises, the process exit code is 1 iff the
list file is missing, the source prompt file is missing, the (filtered) list
is empty, or at least one entry failed; and it is 0 iff both files exist, the
list is non-empty and every entry succeeded. -/
theorem exit_code_one_iff (rlf psf : Bool) (lines : List String) (envs : List Env)
    (ps td cwd0 : String) (ac ap ad : Bool)
    (hnoexn : ((outcomes_list ps td (ac || ap) ap ad (envs.zip (read_repo_list lines)) cwd0).all
        fun o => !o.isExn) = true) :
    (main_exit_code rlf psf lines envs ps td ac ap ad cwd0 = 1 ↔
      (rlf = false ∨ psf = false ∨ read_repo_list lines = [] ∨
        ∃ o ∈ outcomes_list ps td (ac || ap) ap ad (envs.zip (read_repo_list lines)) cwd0,
          o.isFailure = true)) ∧
    (main_exit_code rlf psf lines envs ps td ac ap ad cwd0 = 0 ↔
      (rlf = true ∧ psf = true ∧ read_repo_list lines ≠ [] ∧
        ∀ o ∈ outcomes_list ps td (ac || ap) ap ad (envs.zip (read_repo_list lines)) cwd0,
          o.isFailure = false)) := by
  obtain ⟨e, he⟩ :=
    main_loop_counts ps td (ac || ap) ap ad (envs.zip (read_repo_list lines)) cwd0 hnoexn
  set L := outcomes_list ps td (ac || ap) ap ad (envs.zip (read_repo_list lines)) cwd0 with hL
  cases rlf
  · simp [main_exit_code]
  · cases psf
    · simp [main_exit_code]
    · by_cases hemp : read_repo_list lines = []
      · simp [main_exit_code, hemp]
      · have hne : (read_repo_list lines).isEmpty = false := by
          simpa [List.isEmpty_iff] using hemp
        have hiff : 0 < L.countP Outcome.isFailure ↔ ∃ o ∈ L, o.isFailure = true := by
          simpa using List.countP_pos (p := Outcome.isFailure) (l := L)
        have hzero : L.countP Outcome.isFailure = 0 ↔ ∀ o ∈ L, o.isFailure = false := by
          simpa [Bool.not_eq_true] using List.countP_eq_zero (p := Outcome.isFailure) (l := L)
        simp only [main_exit_code, Bool.not_true, Bool.false_eq_true, if_false, hne, ← hL, he,
          gt_iff_lt]
        by_cases hf : 0 < L.countP Outcome.isFailure
        · have hex := hiff.mp hf
          refine ⟨?_, ?_⟩
          · simp [hf, hemp, hex]
          · simp only [hf, if_pos]
            constructor
            · intro h10
              exact absurd h10 (by simp)
            · rintro ⟨-, -, -, hall⟩
              obtain ⟨o, hmem, hfail⟩ := hex
              have hcontr := hall o hmem
              rw [hfail] at hcontr
              exact absurd hcontr (by simp)
        · have hf0 : L.countP Outcome.isFailure = 0 := Nat.eq_zero_of_not_pos hf
          have hall := hzero.mp hf0
          refine ⟨?_, ?_⟩
          · simp only [hf, if_neg, if_false]
            constructor
            · intro h01
              exact absurd h01 (by simp)
            · rintro (h | h | h | ⟨o, hmem, hfail⟩)
              · exact absurd h (by simp)
              · exact absurd h (by simp)
              · exact absurd h hemp
              · have hcontr := hall o hmem
                rw [hfail] at hcontr
                exact absurd hcontr (by simp)
          · simp [hf, hemp]
            exact hall


theorem exit_code_one_iff_witness :
    (main_exit_code true true ["  /missing  "] [env_all_absent] "/s" "/t" true false false "/w" = 1 ↔
      (true = false ∨ true = false ∨ read_repo_list ["  /missing  "] = [] ∨
        ∃ o ∈ outcomes_list "/s" "/t" (true || false) false false
            ([env_all_absent].zip (read_repo_list ["  /missing  "])) "/w",
          o.isFailure = true)) ∧
    (main_exit_code true true ["  /missing  "] [env_all_absent] "/s" "/t" true false false "/w" = 0 ↔
      (true = true ∧ true = true ∧ read_repo_list ["  /missing  "] ≠ [] ∧
        ∀ o ∈ outcomes_list "/s" "/t" (true || false) false false
            ([env_all_absent].zip (read_repo_list ["  /missing  "])) "/w",
          o.isFailure = false)) :=
  exit_code_one_iff true true ["  /missing  "] [env_all_absent] "/s" "/t" "/w" true false false
    (by decide)

end DeployDocs
